import Mathlib

/-!
Shallow embedding of `src/error_ros.cpp` (capstone drone flight-control core).

C++ `float`/`double` arithmetic is modelled over `ℚ`; note that in Lean
`x / 0 = 0`, whereas IEEE float division by zero yields `inf`/`NaN` — where a
claim turns on a zero divisor this is stated explicitly next to the theorem.

The embedded functions mirror the source line by line:
- `move_drone` (error_ros.cpp:38-48),
- `increase_altitude` (`rampTrace`, error_ros.cpp:54-91),
- `PID_controller` constructor (error_ros.cpp:108-123) and
  `compute_output` (error_ros.cpp:125-163),
- the `autonomy::callback` forward-velocity path (error_ros.cpp:226-229)
  with the `velocity_PI` construction from `main` (error_ros.cpp:265).
-/

namespace ErrorRos

/-- `geometry_msgs::Twist` as filled in by `move_drone`: only the fields the
program ever sets to a nonzero value are tracked besides `linear_y`, which the
source always sets to 0. -/
structure Twist where
  linear_x : ℚ
  linear_y : ℚ
  linear_z : ℚ
  angular_z : ℚ
deriving DecidableEq, Repr

/-- `move_drone(pub, velocity_x, velocity_z, yaw_speed)` (error_ros.cpp:38-48):
builds the Twist message that is published. -/
def move_drone (velocity_x velocity_z yaw_speed : ℚ) : Twist :=
  { linear_x := velocity_x, linear_y := 0, linear_z := velocity_z,
    angular_z := yaw_speed }

/-- The constant-climb command `move_drone(pub, 0, 0.6, 0)` issued by
`increase_altitude::callback` (error_ros.cpp:71). -/
def climbCmd : Twist := move_drone 0 (3/5) 0

/-- The stop command `move_drone(pub, 0, 0, 0)` issued after the altitude loop
exits (error_ros.cpp:85). -/
def stopCmd : Twist := move_drone 0 0 0

/-- `increase_altitude::run` (error_ros.cpp:74-90) driven by a scripted
telemetry stream.  Each `ros::spinOnce()` delivers the next `Navdata` message
(field `altd`) to `increase_altitude::callback` (error_ros.cpp:68-72), which
records `current_altitude = msg->altd` and then unconditionally issues the
climb command.  The `while (current_altitude < desired_altitude)` loop
re-checks after each delivery; on exit `run` issues one stop command and shuts
the subscription down, ignoring the rest of the stream.  The result pairs each
issued command with the value of `current_altitude` at the moment it is
issued; `none` models the loop spinning forever because telemetry stopped
while still below the target. -/
def rampTrace (desired : ℤ) (cur : ℤ) : List ℤ → Option (List (ℤ × Twist))
  | [] => if cur < desired then none else some [(cur, stopCmd)]
  | a :: rest =>
    if cur < desired then
      Option.map (fun t => (a, climbCmd) :: t) (rampTrace desired a rest)
    else
      some [(cur, stopCmd)]

/-- The fields of `class PID_controller` (error_ros.cpp:97-105).  The 3-slot
array `prev_error[3]` is split into the fields `prev_error0`, `prev_error1`,
`prev_error2`. -/
structure PIDState where
  time_stamp_prev : ℚ
  integral : ℚ
  SP : ℚ
  kp : ℚ
  ki : ℚ
  kd : ℚ
  outMax : ℚ
  outMin : ℚ
  prev_error0 : ℚ
  prev_error1 : ℚ
  prev_error2 : ℚ
  output_slew_rate : ℚ
  prev_output : ℚ
  offset : ℚ
deriving DecidableEq, Repr

/-- The `PID_controller` constructor (error_ros.cpp:108-123).  Note that it
sets `time_stamp_prev = 0`, independent of the wall-clock time at which the
object is constructed. -/
def PID_controller (SP_in slew_rate_in outMax_in outMin_in kp_in ki_in kd_in
    offset_in : ℚ) : PIDState :=
  { time_stamp_prev := 0, integral := 0,
    kp := kp_in, ki := ki_in, kd := kd_in, SP := SP_in,
    outMax := outMax_in, outMin := outMin_in,
    prev_error0 := 0, prev_error1 := 0, prev_error2 := 0,
    output_slew_rate := slew_rate_in, prev_output := 0, offset := offset_in }

/-- The derivative expression of `compute_output` (error_ros.cpp:138):
`((error + 3*prev_error[2] - 3*prev_error[1] - prev_error[0])/6)/dt`. -/
def derivative_term (s : PIDState) (error dt : ℚ) : ℚ :=
  ((error + 3 * s.prev_error2 - 3 * s.prev_error1 - s.prev_error0) / 6) / dt

/-- `PID_controller::compute_output` (error_ros.cpp:125-163).  The wall-clock
reading `ros::Time::now().toSec()` is the explicit argument
`time_stamp_curr`.  Returns the control output together with the updated
controller state.  The history update mirrors the source's sequential
assignments `prev_error[1] = prev_error[0]; prev_error[2] = prev_error[1];
prev_error[0] = error;` (error_ros.cpp:158-160): because `prev_error[1]` has
already been overwritten when `prev_error[2]` is assigned, both slots 1 and 2
receive the old `prev_error[0]`. -/
def compute_output (s : PIDState) (time_stamp_curr : ℚ) (PV : ℚ) :
    ℚ × PIDState :=
  let dt := time_stamp_curr - s.time_stamp_prev
  let error := s.SP - PV
  let integral := s.integral + error * dt
  let derivative := derivative_term s error dt
  let output0 := if s.offset < error ∨ error < s.offset * (-1) then
      s.kp * error + s.ki * integral + s.kd * derivative
    else 0
  let output1 := if s.output_slew_rate < output0 - s.prev_output then
      s.prev_output + s.output_slew_rate
    else if output0 - s.prev_output < -s.output_slew_rate then
      s.prev_output - s.output_slew_rate
    else output0
  let output2 := if s.outMax < output1 then s.outMax
    else if output1 < s.outMin then s.outMin
    else output1
  (output2,
    { s with
      time_stamp_prev := time_stamp_curr
      integral := integral
      prev_output := output2
      prev_error1 := s.prev_error0
      prev_error2 := s.prev_error0
      prev_error0 := error })

/-- A sequence of `compute_output` calls: each input is a pair
`(time_stamp_curr, PV)`.  Returns the list of returned outputs and the final
state. -/
def runPID (s : PIDState) : List (ℚ × ℚ) → List ℚ × PIDState
  | [] => ([], s)
  | (t, pv) :: rest =>
    let r := compute_output s t pv
    let rr := runPID r.2 rest
    (r.1 :: rr.1, rr.2)

/-- The forward-velocity part of `autonomy::callback` (error_ros.cpp:228):
`float x_velocity = -velocity_PI.compute_output(image->distance);`.
Returns the emitted forward velocity and the updated controller. -/
def autonomy_x_velocity (velocity_PI : PIDState) (t distance : ℚ) :
    ℚ × PIDState :=
  let r := compute_output velocity_PI t distance
  (-r.1, r.2)

/-- The `velocity_PI` controller constructed in `main` (error_ros.cpp:265):
`PID_controller velocity_PI(250, 0.2, 0.3, -0.3, kp, ki, kd, offset)` with the
four gains taken from `argv`. -/
def velocity_PI_main (kp ki kd offset : ℚ) : PIDState :=
  PID_controller 250 (1/5) (3/10) (-(3/10)) kp ki kd offset

/-! ## Helper lemmas -/

@[simp] theorem outMin_compute_output (s : PIDState) (t pv : ℚ) :
    (compute_output s t pv).2.outMin = s.outMin := rfl

@[simp] theorem outMax_compute_output (s : PIDState) (t pv : ℚ) :
    (compute_output s t pv).2.outMax = s.outMax := rfl

@[simp] theorem slew_compute_output (s : PIDState) (t pv : ℚ) :
    (compute_output s t pv).2.output_slew_rate = s.output_slew_rate := rfl

@[simp] theorem SP_compute_output (s : PIDState) (t pv : ℚ) :
    (compute_output s t pv).2.SP = s.SP := rfl

@[simp] theorem offset_compute_output (s : PIDState) (t pv : ℚ) :
    (compute_output s t pv).2.offset = s.offset := rfl

@[simp] theorem prev_output_compute_output (s : PIDState) (t pv : ℚ) :
    (compute_output s t pv).2.prev_output = (compute_output s t pv).1 := rfl

/-- One call: the returned output lies in the configured output interval
(clamping at error_ros.cpp:153-154). -/
theorem compute_output_bounds (s : PIDState) (t pv : ℚ)
    (h : s.outMin ≤ s.outMax) :
    s.outMin ≤ (compute_output s t pv).1 ∧ (compute_output s t pv).1 ≤ s.outMax := by
  simp only [compute_output]
  split_ifs <;> constructor <;> linarith

/-- One call: the returned output moves away from the stored previous output
by at most the slew rate (error_ros.cpp:150-151), provided the slew rate is
nonnegative and the previous output already sits inside the output bounds. -/
theorem compute_output_slew_step (s : PIDState) (t pv : ℚ)
    (hr : 0 ≤ s.output_slew_rate)
    (hp1 : s.outMin ≤ s.prev_output) (hp2 : s.prev_output ≤ s.outMax) :
    |(compute_output s t pv).1 - s.prev_output| ≤ s.output_slew_rate := by
  rw [abs_le]
  simp only [compute_output]
  split_ifs <;> constructor <;> linarith

/-- Every output produced along any call sequence stays in the output
interval. -/
theorem runPID_bounds (s : PIDState) (h : s.outMin ≤ s.outMax)
    (inputs : List (ℚ × ℚ)) :
    ∀ o ∈ (runPID s inputs).1, s.outMin ≤ o ∧ o ≤ s.outMax := by
  induction inputs generalizing s with
  | nil => simp [runPID]
  | cons tp rest ih =>
    obtain ⟨t, pv⟩ := tp
    intro o ho
    simp only [runPID, List.mem_cons] at ho
    rcases ho with rfl | ho
    · exact compute_output_bounds s t pv h
    · exact ih (compute_output s t pv).2 h o ho

/-- Along any call sequence, consecutive outputs (starting from the stored
previous output) differ by at most the slew rate. -/
theorem runPID_chain (s : PIDState) (hmM : s.outMin ≤ s.outMax)
    (hr : 0 ≤ s.output_slew_rate)
    (hp1 : s.outMin ≤ s.prev_output) (hp2 : s.prev_output ≤ s.outMax)
    (inputs : List (ℚ × ℚ)) :
    List.Chain' (fun a b => |b - a| ≤ s.output_slew_rate)
      (s.prev_output :: (runPID s inputs).1) := by
  induction inputs generalizing s with
  | nil => simp [runPID]
  | cons tp rest ih =>
    obtain ⟨t, pv⟩ := tp
    have hb := compute_output_bounds s t pv hmM
    have hstep := compute_output_slew_step s t pv hr hp1 hp2
    have hchain := ih (compute_output s t pv).2 hmM hr hb.1 hb.2
    simp only [runPID]
    exact List.Chain'.cons (by simpa using hstep) hchain

/-- At the setpoint the deadband branch (error_ros.cpp:144-147) forces the
pre-limit output to 0, and with nonnegative slew rate, bounds containing 0 and
previous output 0, the returned output is exactly 0. -/
theorem compute_output_at_setpoint (s : PIDState) (t : ℚ)
    (hr : 0 ≤ s.output_slew_rate) (hm : s.outMin ≤ 0) (hM : 0 ≤ s.outMax)
    (hoff : 0 ≤ s.offset) (hprev : s.prev_output = 0) :
    (compute_output s t s.SP).1 = 0 := by
  have h1 : ¬ (s.offset < s.SP - s.SP ∨ s.SP - s.SP < s.offset * (-1)) := by
    push_neg
    constructor <;> linarith
  simp only [compute_output, hprev, if_neg h1]
  split_ifs <;> linarith

/-- Feeding the setpoint as process value on every call keeps every returned
output at 0. -/
theorem runPID_at_setpoint (s : PIDState)
    (hr : 0 ≤ s.output_slew_rate) (hm : s.outMin ≤ 0) (hM : 0 ≤ s.outMax)
    (hoff : 0 ≤ s.offset) (hprev : s.prev_output = 0) (times : List ℚ) :
    ∀ o ∈ (runPID s (times.map (fun u => (u, s.SP)))).1, o = 0 := by
  induction times generalizing s with
  | nil => simp [runPID]
  | cons t rest ih =>
    simp only [List.map_cons, runPID, List.mem_cons]
    rintro o (rfl | ho)
    · exact compute_output_at_setpoint s t hr hm hM hoff hprev
    · refine ih (compute_output s t s.SP).2 hr hm hM hoff ?_ o ho
      rw [prev_output_compute_output]
      exact compute_output_at_setpoint s t hr hm hM hoff hprev

/-- Structure of every terminating altitude-ramp trace: some number n of
telemetry updates are processed, each of which issues a climb command tagged
with the just-recorded altitude, followed by exactly one stop command; the
altitude seen before each processed update is below the target and the
altitude at the stop is not. -/
theorem rampTrace_shape (desired : ℤ) (stream : List ℤ) :
    ∀ (cur : ℤ) (tr : List (ℤ × Twist)), rampTrace desired cur stream = some tr →
    ∃ n, n ≤ stream.length ∧
      tr = (stream.take n).map (fun a => (a, climbCmd)) ++
        [((cur :: stream).getD n 0, stopCmd)] ∧
      (∀ i < n, (cur :: stream).getD i 0 < desired) ∧
      ¬ (cur :: stream).getD n 0 < desired := by
  induction stream with
  | nil =>
    intro cur tr h
    simp only [rampTrace] at h
    split_ifs at h with hc
    refine ⟨0, by simp, ?_, ?_, ?_⟩
    · simpa using h.symm
    · intro i hi; omega
    · simpa using hc
  | cons a rest ih =>
    intro cur tr h
    simp only [rampTrace] at h
    split_ifs at h with hc
    · rcases Option.map_eq_some'.mp h with ⟨t', ht', rfl⟩
      rcases ih a t' ht' with ⟨n, hn, htr, hguard, hstop⟩
      refine ⟨n + 1, by simpa using Nat.succ_le_succ hn, ?_, ?_, ?_⟩
      · simpa [List.take_succ_cons] using htr
      · intro i hi
        cases i with
        | zero => simpa using hc
        | succ j => simpa using hguard j (by omega)
      · simpa using hstop
    · refine ⟨0, by simp, ?_, ?_, ?_⟩
      · simpa using h.symm
      · intro i hi; omega
      · simpa using hc

/-! ## Claim theorems -/

/-- Claim C1 (code bug).  With synthetic error samples e0 = 0, e1 = 0, e2 = 6
(setpoint 0, process values 0, 0, -6, timestamps 1, 2, 3 so dt = 1 throughout)
and current error e3 = 0 at the fourth call (timestamp 4), the derivative the
code computes on the fourth call - derivative_term applied to the state after
the first three calls, with the fourth call's error 0 - 0 and dt 4 - 3 - is
-1, whereas the claimed smoothed four-point estimator
(e3 + 3*e2 - 3*e1 - e0) / 6 / dt equals 3.  The scrambled history shift at
error_ros.cpp:158-160 copies the already-updated slot 1 into slot 2, so the
3-slot history never holds the three most recent prior errors in order and
the fourth-call derivative degenerates to (e3 - e2) / 6 / dt. -/
theorem C1_history_shift_bug :
    derivative_term
      (runPID (PID_controller 0 1000 1000 (-1000) 0 0 0 0)
        [(1, 0), (2, 0), (3, -6)]).2 (0 - 0) (4 - 3) = -1 ∧
    ((0 : ℚ) + 3 * 6 - 3 * 0 - 0) / 6 / 1 = 3 ∧ (-1 : ℚ) ≠ 3 := by
  refine ⟨?_, by norm_num, by norm_num⟩
  norm_num [runPID, compute_output, PID_controller, derivative_term]

/-- Claim C2 (counterexample).  With the velocity controller of main
(setpoint 250, slew 0.2, bounds 0.3 and -0.3) under the natural gains kp = 1,
ki = kd = 0, offset 0, processing distance 300 at time 1 yields forward
velocity 1/5, which is not negative: the code drives the drone forward, not
backward, when the target is farther than the setpoint. -/
theorem C2_counterexample :
    (autonomy_x_velocity (velocity_PI_main 1 0 0 0) 1 300).1 = 1/5 ∧
    ¬ (autonomy_x_velocity (velocity_PI_main 1 0 0 0) 1 300).1 < 0 := by
  constructor <;>
    norm_num [autonomy_x_velocity, velocity_PI_main, PID_controller,
      compute_output, derivative_term]

/-- Claim C2 (amended).  For the forward-velocity controller constructed with
setpoint 250 (bounds -0.3 and 0.3, slew 0.2 as in main), with positive
proportional gain, nonnegative integral and derivative gains, deadband offset
below 50 and a positive first-call timestamp, processing an error signal with
distance 300 yields a forward-velocity output that is strictly positive
(forward: the target is farther than desired) and within the configured
output bounds. -/
theorem C2_forward_velocity_amended (kp ki kd off t : ℚ)
    (hkp : 0 < kp) (hki : 0 ≤ ki) (hkd : 0 ≤ kd) (hoff : off < 50)
    (ht : 0 < t) :
    0 < (autonomy_x_velocity (velocity_PI_main kp ki kd off) t 300).1 ∧
      (autonomy_x_velocity (velocity_PI_main kp ki kd off) t 300).1 ≤ 3/10 := by
  have hd : ((250 : ℚ) - 300 + 3 * 0 - 3 * 0 - 0) / 6 / (t - 0) < 0 := by
    apply div_neg_of_neg_of_pos
    · norm_num
    · linarith
  have hterm2 : ki * (0 + ((250 : ℚ) - 300) * (t - 0)) ≤ 0 := by
    apply mul_nonpos_of_nonneg_of_nonpos hki
    nlinarith
  have hterm3 : kd * (((250 : ℚ) - 300 + 3 * 0 - 3 * 0 - 0) / 6 / (t - 0)) ≤ 0 :=
    mul_nonpos_of_nonneg_of_nonpos hkd (le_of_lt hd)
  have hterm1 : kp * ((250 : ℚ) - 300) < 0 := by nlinarith
  simp only [autonomy_x_velocity, velocity_PI_main, PID_controller,
    compute_output, derivative_term]
  norm_num at hterm1 hterm2 hterm3 hd ⊢
  split_ifs with h1 h2 h3 h4 h5 <;> norm_num <;> push_neg at * <;>
    first
      | (constructor <;> linarith)
      | linarith

/-- Claim C2 witness: the amended statement at kp = 1, ki = kd = 0,
offset = 0, first call at time 1. -/
theorem C2_forward_velocity_witness :
    (0 : ℚ) < 1 ∧
      0 < (autonomy_x_velocity (velocity_PI_main 1 0 0 0) 1 300).1 ∧
      (autonomy_x_velocity (velocity_PI_main 1 0 0 0) 1 300).1 ≤ 3/10 :=
  ⟨by norm_num,
    C2_forward_velocity_amended 1 0 0 0 1 (by norm_num) (by norm_num)
      (by norm_num) (by norm_num) (by norm_num)⟩

/-- Claim C3 (code bug).  A second call with the same timestamp as the first
makes dt = 0, yet compute_output does not reject the sample: it still returns
an ordinary clamped output (here 1).  In the source the derivative expression
divides by dt = 0, producing inf or NaN in C++ float arithmetic; in this
rational model division by zero evaluates to 0, which only hides the same
unguarded division.  There is no rejected-sample path in the code. -/
theorem C3_dt_zero_bug :
    (5 : ℚ) -
      ((compute_output (PID_controller 0 1 1 (-1) 1 1 1 0) 5 (-1)).2).time_stamp_prev = 0 ∧
    (compute_output
      ((compute_output (PID_controller 0 1 1 (-1) 1 1 1 0) 5 (-1)).2) 5 (-1)).1 = 1 := by
  constructor <;> norm_num [compute_output, PID_controller, derivative_term]

/-- Claim C4 (confirmed).  For every sequence of calls to compute_output on a
freshly constructed controller whose bounds satisfy outMin at most outMax,
every returned output lies within the interval from outMin to outMax,
whatever the gains, the input errors and the timestamps. -/
theorem C4_output_bounds (SP slew M m kp ki kd off : ℚ) (h : m ≤ M)
    (inputs : List (ℚ × ℚ)) :
    ∀ o ∈ (runPID (PID_controller SP slew M m kp ki kd off) inputs).1,
      m ≤ o ∧ o ≤ M :=
  runPID_bounds (PID_controller SP slew M m kp ki kd off) h inputs

/-- Claim C4 witness: a concrete two-call run with saturating gains stays in
the interval from -1 to 1. -/
theorem C4_output_bounds_witness :
    ((-1 : ℚ) ≤ 1) ∧
      ∀ o ∈ (runPID (PID_controller 0 1 1 (-1) 1 1 1 0) [(1, 5), (2, -7)]).1,
        -1 ≤ o ∧ o ≤ 1 :=
  ⟨by norm_num,
    C4_output_bounds 0 1 1 (-1) 1 1 1 0 (by norm_num) [(1, 5), (2, -7)]⟩

/-- Claim C5 (confirmed).  On a freshly constructed controller with
nonnegative slew rate and output bounds containing 0 (so the initial previous
output 0 is in range), any two consecutive returned outputs differ by at most
the slew rate, for every gain magnitude and every input sequence. -/
theorem C5_slew_limit (SP slew M m kp ki kd off : ℚ)
    (hr : 0 ≤ slew) (hm : m ≤ 0) (hM : 0 ≤ M) (inputs : List (ℚ × ℚ)) :
    List.Chain' (fun a b => |b - a| ≤ slew)
      ((runPID (PID_controller SP slew M m kp ki kd off) inputs).1) :=
  (runPID_chain (PID_controller SP slew M m kp ki kd off)
    (le_trans hm hM) hr hm hM inputs).tail

/-- Claim C5 witness: a concrete three-call run with large gain steps changes
by at most 1 between consecutive outputs. -/
theorem C5_slew_limit_witness :
    (0 : ℚ) ≤ 1 ∧
      List.Chain' (fun a b => |b - a| ≤ (1 : ℚ))
        ((runPID (PID_controller 0 1 1 (-1) 1 1 1 0)
          [(1, 5), (2, -7), (3, 9)]).1) :=
  ⟨by norm_num,
    C5_slew_limit 0 1 1 (-1) 1 1 1 0 (by norm_num) (by norm_num) (by norm_num)
      [(1, 5), (2, -7), (3, 9)]⟩

/-- Claim C6 (counterexample).  Target 1300, telemetry stream consisting of
the single update 1300: the update makes current altitude 1300, which is not
below the target, yet the callback still issues a climb command (recorded at
altitude 1300) before the stop command - contradicting the claim that climb
commands are issued only while the current altitude is below the target. -/
theorem C6_counterexample :
    rampTrace 1300 0 [1300] = some [(1300, climbCmd), (1300, stopCmd)] ∧
    climbCmd ≠ stopCmd ∧ ¬ (1300 : ℤ) < 1300 := by
  refine ⟨?_, ?_, by norm_num⟩
  · norm_num [rampTrace]
  · simp [climbCmd, stopCmd, move_drone]

/-- Claim C6 (amended).  For every telemetry stream on which run(target)
returns, some first n updates are processed and the callback issues a climb
command on every one of them, including the final update that reaches the
target; the altitude held before each processed update is below the target;
after the update that makes the altitude reach the target, exactly one
zero-velocity stop command is issued, telemetry is unsubscribed and the rest
of the stream is ignored. -/
theorem C6_ramp_amended (desired : ℤ) (stream : List ℤ)
    (tr : List (ℤ × Twist)) (h : rampTrace desired 0 stream = some tr) :
    ∃ n, n ≤ stream.length ∧
      tr = (stream.take n).map (fun a => (a, climbCmd)) ++
        [(((0 : ℤ) :: stream).getD n 0, stopCmd)] ∧
      (∀ i < n, ((0 : ℤ) :: stream).getD i 0 < desired) ∧
      ¬ ((0 : ℤ) :: stream).getD n 0 < desired :=
  rampTrace_shape desired stream 0 tr h

/-- Claim C6 witness: the amended statement on the stream 500, 1300 with
target 1300: two climbs then one stop. -/
theorem C6_ramp_witness :
    ∃ n, n ≤ ([500, 1300] : List ℤ).length ∧
      ([(500, climbCmd), (1300, climbCmd), (1300, stopCmd)] : List (ℤ × Twist)) =
        (([500, 1300] : List ℤ).take n).map (fun a => (a, climbCmd)) ++
        [(((0 : ℤ) :: [500, 1300]).getD n 0, stopCmd)] ∧
      (∀ i < n, ((0 : ℤ) :: [500, 1300]).getD i 0 < 1300) ∧
      ¬ ((0 : ℤ) :: [500, 1300]).getD n 0 < 1300 :=
  C6_ramp_amended 1300 [500, 1300]
    [(500, climbCmd), (1300, climbCmd), (1300, stopCmd)]
    (by norm_num [rampTrace])

/-- Claim C7 (confirmed).  Feeding the setpoint as process value on every
call of any constant input sequence keeps every returned output equal to 0
and within the deadband, on every call - in particular after a warm-up of 4
calls.  The offset is assumed nonnegative as in the claim; the slew rate and
output bounds are universally quantified subject to the conditions every
controller constructed by main satisfies (nonnegative slew rate, output
bounds containing 0). -/
theorem C7_setpoint_zero (SP slew M m kp ki kd off : ℚ)
    (hr : 0 ≤ slew) (hm : m ≤ 0) (hM : 0 ≤ M) (hoff : 0 ≤ off)
    (times : List ℚ) :
    ∀ o ∈ (runPID (PID_controller SP slew M m kp ki kd off)
        (times.map (fun u => (u, SP)))).1,
      o = 0 ∧ |o| ≤ off := by
  intro o ho
  have h0 := runPID_at_setpoint (PID_controller SP slew M m kp ki kd off)
    hr hm hM hoff rfl times o ho
  refine ⟨h0, ?_⟩
  rw [h0]
  simpa using hoff

/-- Claim C7 witness: five constant-at-setpoint calls on a controller with
setpoint 7 and nonzero gains all return 0 and stay within the deadband 1. -/
theorem C7_setpoint_zero_witness :
    (0 : ℚ) ≤ 1 ∧
      ∀ o ∈ (runPID (PID_controller 7 1 1 (-1) 2 3 4 1)
          (([5, 6, 7, 8, 9] : List ℚ).map (fun u => (u, 7)))).1,
        o = 0 ∧ |o| ≤ 1 :=
  ⟨by norm_num,
    C7_setpoint_zero 7 1 1 (-1) 2 3 4 1 (by norm_num) (by norm_num)
      (by norm_num) (by norm_num) [5, 6, 7, 8, 9]⟩

/-- Claim C8 (code bug).  The constructor sets time_stamp_prev to 0, not to
the wall-clock time of construction: for a controller constructed at
wall-clock time 100 whose first compute_output call happens at wall-clock
time 101, the dt of the first call is 101 - 0 = 101 (the full seconds-since-
epoch reading), not the 1 second actually elapsed since construction. -/
theorem C8_timestamp_bug :
    (PID_controller 250 (1/5) (3/10) (-(3/10)) 1 1 1 0).time_stamp_prev = 0 ∧
    (101 : ℚ) -
      (PID_controller 250 (1/5) (3/10) (-(3/10)) 1 1 1 0).time_stamp_prev = 101 ∧
    (101 : ℚ) ≠ 101 - 100 :=
  ⟨rfl, by norm_num [PID_controller], by norm_num⟩

/-- Claim C10 (confirmed).  On every compute_output call the integral
accumulator of the returned state equals the old accumulator plus
error * dt, with error the setpoint minus the process value and dt the time
since the stored timestamp; the update happens before and independently of
the deadband branch, so it also happens on calls whose output is forced
to 0. -/
theorem C10_integral_unconditional (s : PIDState) (t pv : ℚ) :
    (compute_output s t pv).2.integral =
      s.integral + (s.SP - pv) * (t - s.time_stamp_prev) := rfl

end ErrorRos
